import Mathlib

/-!
libpomp, event loop, win32 implementation (`src/pomp_loop_win32.c`).

A shallow embedding of the win32 backend of the libpomp event loop and the
properties proved about it.

* Machine words (`uint32_t`, `DWORD`, the bit pattern of a `long`) are natural
  numbers; where the C code does `DWORD` arithmetic the reduction modulo `2^32`
  is written out.
* A `HANDLE`, a callback pointer and a user-data pointer are natural numbers
  compared by identity; `NULL` is `0`.
* The intrusive list `loop->pfds` / `pfd->next` is a `List pomp_fd` in table
  order.
* Every call into the Windows API goes through a record `Win32 K` of functions
  on an explicit world state `K` (kernel objects, sockets, `errno`); the header
  constants that neither the repository nor its specification fixes are fields
  of the same record.
* Calling a registered callback is recorded as an `Invocation` in the outcome of
  the wait; what the callback itself does is outside the backend.
* Logging (`POMP_LOGE`, `POMP_LOGW`, `POMP_LOG_ERRNO`) has no effect on the
  state and is left out.
-/

namespace Pomp

/-! ## Data model -/

/-- A Windows object handle, compared by identity. -/
abbrev HANDLE := Nat

/-- The null handle. -/
def NULL : HANDLE := 0

/-- Modelled from the spec: the libpomp header that defines the interest mask values is not
among the sources; the specification gives "READABLE = 1". -/
def POMP_FD_EVENT_IN : Nat := 1

/-- Modelled from the spec: the libpomp header that defines the interest mask values is not
among the sources; the specification gives "WRITABLE = 2". -/
def POMP_FD_EVENT_OUT : Nat := 2

/-- Modelled from the spec: the platform header that defines the bound on the number of
objects of one wait is not among the sources; the specification gives the bound as
"typically 64". -/
def MAXIMUM_WAIT_OBJECTS : Nat := 64

/-- The fields of `struct pomp_fd` that the win32 backend reads or writes. -/
structure pomp_fd where
  /-- Native handle under watch (`int fd`). -/
  fd : Int
  /-- Interest mask (`uint32_t events`). -/
  events : Nat
  /-- Callback pointer. -/
  cb : Nat
  /-- User-data pointer. -/
  userdata : Nat
  /-- Notification object of the entry. -/
  hevt : HANDLE
deriving DecidableEq, Repr

/-- The member `wakeup` of `struct pomp_loop`. -/
structure pomp_loop_wakeup where
  /-- Event object used to wake the loop up. -/
  hevt : HANDLE
deriving DecidableEq, Repr

/-- The fields of `struct pomp_loop` that the win32 backend reads or writes. -/
structure pomp_loop where
  /-- Registered entries, in table order. -/
  pfds : List pomp_fd
  /-- Wakeup primitive. -/
  wakeup : pomp_loop_wakeup
deriving DecidableEq, Repr

/-- The platform the backend is compiled against: constants of the Windows SDK and C runtime
headers, and the API calls the backend makes, as functions on a world state `K`. -/
structure Win32 (K : Type) where
  /-- Network event bit `FD_READ`. -/
  FD_READ : Nat
  /-- Network event bit `FD_WRITE`. -/
  FD_WRITE : Nat
  /-- Network event bit `FD_ACCEPT`. -/
  FD_ACCEPT : Nat
  /-- Network event bit `FD_CONNECT`. -/
  FD_CONNECT : Nat
  /-- Network event bit `FD_CLOSE`. -/
  FD_CLOSE : Nat
  /-- Wait result of the object at index 0. -/
  WAIT_OBJECT_0 : Nat
  /-- Wait result when the timeout elapsed. -/
  WAIT_TIMEOUT : Nat
  /-- Timeout value meaning "wait forever". -/
  INFINITE : Nat
  /-- Error number `ETIMEDOUT`. -/
  ETIMEDOUT : Int
  /-- Error number `ENOSYS`. -/
  ENOSYS : Int
  /-- Current value of the C runtime variable `errno`. -/
  errno : K → Int
  /-- The call `CreateEvent(NULL, bManualReset, bInitialState, NULL)`: the new handle, or `NULL`. -/
  CreateEvent : K → Bool → Bool → HANDLE × K
  /-- The call `CloseHandle(h)`; the backend ignores its result. -/
  CloseHandle : K → HANDLE → K
  /-- The call `SetEvent(h)`: whether it succeeded. -/
  SetEvent : K → HANDLE → Bool × K
  /-- The call `ResetEvent(h)`; the backend ignores its result. -/
  ResetEvent : K → HANDLE → K
  /-- The call `WSAEventSelect(fd, h, mask)`: its return value. -/
  WSAEventSelect : K → Int → HANDLE → Nat → Int × K
  /-- The call `WSAEnumNetworkEvents(fd, h, &events)` on a zeroed `events`: the bit pattern
  found in `events.lNetworkEvents` afterwards. -/
  WSAEnumNetworkEvents : K → Int → HANDLE → Nat × K
  /-- The call `WaitForMultipleObjects(count, hevts, bWaitAll, ms)`: its return value, or
  `none` when the call never returns. -/
  WaitForMultipleObjects : K → Nat → List HANDLE → Bool → Nat → Option (Nat × K)

/-- One call of a registered callback: `(*cb)(fd, revents, userdata)`. -/
structure Invocation where
  /-- Callback pointer that was called. -/
  cb : Nat
  /-- First argument. -/
  fd : Int
  /-- Second argument. -/
  revents : Nat
  /-- Third argument. -/
  userdata : Nat
deriving DecidableEq, Repr

/-- What one call of `pomp_loop_win32_do_wait_and_process` did. -/
structure Outcome (K : Type) where
  /-- Return value. -/
  ret : Int
  /-- Callbacks invoked, in order. -/
  calls : List Invocation
  /-- World state left by the backend's own platform calls. -/
  world : K
  /-- The loop structure after the call. -/
  loop : pomp_loop

/-! ## The backend -/

/-- Convert fd event from wsa events (`fd_events_from_wsa`). -/
def fd_events_from_wsa {K : Type} (P : Win32 K) (events : Nat) : Nat :=
  let res := 0
  let res := if events &&& P.FD_READ ≠ 0 then res ||| POMP_FD_EVENT_IN else res
  let res := if events &&& P.FD_WRITE ≠ 0 then res ||| POMP_FD_EVENT_OUT else res
  let res := if events &&& P.FD_ACCEPT ≠ 0 then res ||| POMP_FD_EVENT_IN else res
  let res := if events &&& P.FD_CONNECT ≠ 0 then res ||| POMP_FD_EVENT_OUT else res
  let res := if events &&& P.FD_CLOSE ≠ 0 then res ||| POMP_FD_EVENT_IN else res
  res

/-- Convert fd event to wsa events (`fd_events_to_wsa`). -/
def fd_events_to_wsa {K : Type} (P : Win32 K) (events : Nat) : Nat :=
  let res := 0
  let res := if events &&& POMP_FD_EVENT_IN ≠ 0 then
    res ||| (P.FD_READ ||| P.FD_ACCEPT ||| P.FD_CLOSE) else res
  let res := if events &&& POMP_FD_EVENT_OUT ≠ 0 then
    res ||| (P.FD_WRITE ||| P.FD_CONNECT) else res
  res

/-- The function `pomp_loop_win32_do_add`: return value, the entry as left by the call, and the
world. -/
def pomp_loop_win32_do_add {K : Type} (P : Win32 K) (w : K) (_loop : pomp_loop)
    (pfd : pomp_fd) : Int × pomp_fd × K :=
  -- pfd->hevt = CreateEvent(NULL, 0, 0, NULL);
  let (h, w1) := P.CreateEvent w false false
  let pfd1 := { pfd with hevt := h }
  if pfd1.hevt = NULL then
    -- res = -errno; goto error; at the label the handle is NULL, nothing to close
    (-(P.errno w1), pfd1, w1)
  else
    let (r, w2) := P.WSAEventSelect w1 pfd1.fd pfd1.hevt (fd_events_to_wsa P pfd1.events)
    if r ≠ 0 then
      -- res = -errno; goto error; CloseHandle(pfd->hevt); pfd->hevt = NULL;
      let res := -(P.errno w2)
      (res, { pfd1 with hevt := NULL }, P.CloseHandle w2 pfd1.hevt)
    else
      (0, pfd1, w2)

/-- The function `pomp_loop_win32_do_get_fd`: return value and the loop after the call. -/
def pomp_loop_win32_do_get_fd {K : Type} (P : Win32 K) (loop : pomp_loop) : Int × pomp_loop :=
  (-P.ENOSYS, loop)

/-- The function `pomp_loop_win32_do_wakeup`: return value and the world. -/
def pomp_loop_win32_do_wakeup {K : Type} (P : Win32 K) (w : K) (loop : pomp_loop) : Int × K :=
  let (ok, w1) := P.SetEvent w loop.wakeup.hevt
  -- if (!SetEvent(...)) res = -errno;   the function then returns the constant 0
  let _res : Int := if ok then 0 else -(P.errno w1)
  (0, w1)

/-- Find a registered fd in loop by its notification event
(`pomp_loop_win32_find_pfd_by_hevt`); `none` is the C `NULL`. -/
def pomp_loop_win32_find_pfd_by_hevt (loop : pomp_loop) (hevt : HANDLE) : Option pomp_fd :=
  -- for (pfd = loop->pfds; pfd != NULL; pfd = pfd->next) if (pfd->hevt == hevt) return pfd;
  loop.pfds.find? (fun pfd => pfd.hevt = hevt)

/-- The filled part of the array `hevts` after the first two blocks of
`pomp_loop_win32_do_wait_and_process`; its length is the variable `count`. -/
def pomp_loop_win32_wait_set (loop : pomp_loop) : List HANDLE :=
  -- hevts[count++] = loop->wakeup.hevt;
  let hevts := [loop.wakeup.hevt]
  -- for (pfd = loop->pfds; ...) if (count < MAXIMUM_WAIT_OBJECTS) hevts[count++] = pfd->hevt;
  loop.pfds.foldl
    (fun hevts pfd => if hevts.length < MAXIMUM_WAIT_OBJECTS then hevts ++ [pfd.hevt] else hevts)
    hevts

/-- The conversion `(DWORD)timeout` of an `int`. -/
def toDWORD (timeout : Int) : Nat := (timeout % 4294967296).toNat

/-- The wait step of `pomp_loop_win32_do_wait_and_process`: the value of `waitres` and the
world after the call, or `none` when the call never returns. -/
def pomp_loop_win32_wait {K : Type} (P : Win32 K) (w : K) (loop : pomp_loop) (timeout : Int) :
    Option (Nat × K) :=
  let hevts := pomp_loop_win32_wait_set loop
  let count := hevts.length
  -- waitres = WaitForMultipleObjects(count, hevts, 0, timeout == -1 ? INFINITE : (DWORD)timeout);
  P.WaitForMultipleObjects w count hevts false (if timeout = -1 then P.INFINITE else toDWORD timeout)

/-- The function `pomp_loop_win32_do_wait_and_process`; `none` when the platform wait never
returns. -/
def pomp_loop_win32_do_wait_and_process {K : Type} (P : Win32 K) (w : K) (loop : pomp_loop)
    (timeout : Int) : Option (Outcome K) :=
  let hevts := pomp_loop_win32_wait_set loop
  let count := hevts.length
  match pomp_loop_win32_wait P w loop timeout with
  | none => none
  | some (waitres, w1) =>
    if waitres = P.WAIT_TIMEOUT then
      some ⟨-P.ETIMEDOUT, [], w1, loop⟩
    else if waitres < P.WAIT_OBJECT_0 ∨ waitres ≥ (P.WAIT_OBJECT_0 + count) % 4294967296 then
      some ⟨0, [], w1, loop⟩
    else
      -- hevt = hevts[waitres - WAIT_OBJECT_0];
      let hevt := hevts.getD (waitres - P.WAIT_OBJECT_0) NULL
      if hevt = loop.wakeup.hevt then
        some ⟨0, [], P.ResetEvent w1 loop.wakeup.hevt, loop⟩
      else
        match pomp_loop_win32_find_pfd_by_hevt loop hevt with
        | none => some ⟨0, [], w1, loop⟩
        | some pfd =>
          if pfd.fd ≥ 0 then
            -- socket event
            let (lNetworkEvents, w2) := P.WSAEnumNetworkEvents w1 pfd.fd pfd.hevt
            let revents := fd_events_from_wsa P lNetworkEvents
            some ⟨0, [⟨pfd.cb, pfd.fd, revents, pfd.userdata⟩], w2, loop⟩
          else
            -- timer event
            some ⟨0, [⟨pfd.cb, pfd.fd, POMP_FD_EVENT_IN, pfd.userdata⟩], w1, loop⟩

/-! ## A reference platform

A small executable model of the part of Windows the backend talks to. Event objects are
signaled or not and manual-reset or auto-reset; a wait on several objects is satisfied by the
lowest-index signaled object of the wait set, and resets that object when it is auto-reset.
The calls report failure through their return value only: none of them writes `errno`, which
belongs to the C runtime (the Windows calls keep their error in `GetLastError` and
`WSAGetLastError`). -/

/-- An open event object. -/
structure EventObj where
  /-- Handle that designates the object. -/
  handle : HANDLE
  /-- Whether the object is manual-reset. -/
  manualReset : Bool
  /-- Whether the object is signaled. -/
  signaled : Bool
deriving DecidableEq, Repr

/-- World state of the reference platform. -/
structure World where
  /-- Open event objects. -/
  events : List EventObj
  /-- Number of event objects that can still be created. -/
  quota : Nat
  /-- Open sockets, each with its pending network events. -/
  sockets : List (Int × Nat)
  /-- The C runtime variable `errno`. -/
  errno : Int
deriving DecidableEq, Repr

/-- Whether `h` designates an open event object. -/
def World.isOpen (w : World) (h : HANDLE) : Bool :=
  w.events.any (fun e => e.handle == h)

/-- Whether `h` designates a signaled event object. -/
def World.signaled (w : World) (h : HANDLE) : Bool :=
  w.events.any (fun e => e.handle == h && e.signaled)

/-- Set the state of the event object `h`. -/
def World.setSignal (w : World) (h : HANDLE) (b : Bool) : World :=
  { w with events := w.events.map (fun e => if e.handle = h then { e with signaled := b } else e) }

/-- Reset the event object `h` if it is auto-reset. -/
def World.autoReset (w : World) (h : HANDLE) : World :=
  let reset := fun (e : EventObj) =>
    if e.handle = h ∧ e.manualReset = false then { e with signaled := false } else e
  { w with events := w.events.map reset }

/-- A handle value no open event object uses, never `NULL`. -/
def World.fresh (w : World) : HANDLE :=
  (w.events.map (fun e => e.handle)).foldl max 0 + 1

/-- Index, counted from `i`, of the first signaled object of a list of handles. -/
def World.lowestSignaled (w : World) : List HANDLE → Nat → Option Nat
  | [], _ => none
  | h :: hs, i => if w.signaled h then some i else World.lowestSignaled w hs (i + 1)

/-- The reference platform, with the values the Windows SDK and C runtime headers give the
constants (`winsock2.h`, `winbase.h`, `errno.h`). -/
def win32 : Win32 World where
  FD_READ := 1
  FD_WRITE := 2
  FD_ACCEPT := 8
  FD_CONNECT := 16
  FD_CLOSE := 32
  WAIT_OBJECT_0 := 0
  WAIT_TIMEOUT := 258
  INFINITE := 4294967295
  ETIMEDOUT := 138
  ENOSYS := 40
  errno := fun w => w.errno
  -- fails with NULL when no event object can be created, else opens a new object
  CreateEvent := fun w manual initial =>
    if w.quota = 0 then (NULL, w)
    else (w.fresh, { w with events := ⟨w.fresh, manual, initial⟩ :: w.events, quota := w.quota - 1 })
  CloseHandle := fun w h =>
    if w.isOpen h then
      { w with events := w.events.filter (fun e => e.handle != h), quota := w.quota + 1 }
    else w
  -- fails on a handle that is not an open event object
  SetEvent := fun w h => if w.isOpen h then (true, w.setSignal h true) else (false, w)
  ResetEvent := fun w h => w.setSignal h false
  -- 0 on an open socket and an open event object, SOCKET_ERROR (-1) otherwise
  WSAEventSelect := fun w fd h _mask =>
    if w.sockets.any (fun s => s.1 == fd) ∧ w.isOpen h then (0, w) else (-1, w)
  -- reports the pending events of the socket, clears them and resets the event object;
  -- on a handle that is not a socket it fails and the zeroed record stays as it is
  WSAEnumNetworkEvents := fun w fd h =>
    match w.sockets.find? (fun s => s.1 == fd) with
    | none => (0, w)
    | some s =>
      let w1 := w.setSignal h false
      (s.2, { w1 with sockets := w.sockets.map (fun t => if t.1 = fd then (t.1, 0) else t) })
  -- WAIT_OBJECT_0 + i for the lowest signaled index i among the first count handles;
  -- otherwise WAIT_TIMEOUT after a finite timeout, and no return at all for INFINITE
  WaitForMultipleObjects := fun w count hevts _waitAll ms =>
    match w.lowestSignaled (hevts.take count) 0 with
    | some i => some (0 + i, w.autoReset (hevts.getD i NULL))
    | none => if ms = 4294967295 then none else some (258, w)

/-! ## Sample states -/

/-- A loop with two registered sockets: handles 5 and 6, notification objects 11 and 12, wakeup
primitive 10. -/
def sampleLoop : pomp_loop :=
  ⟨[⟨5, 1, 100, 200, 11⟩, ⟨6, 3, 101, 201, 12⟩], ⟨10⟩⟩

/-- A world for `sampleLoop` in which nothing is signaled. -/
def quietWorld : World :=
  ⟨[⟨10, true, false⟩, ⟨11, false, false⟩, ⟨12, false, false⟩], 5, [(5, 0), (6, 0)], 0⟩

/-- A world for `sampleLoop` in which the notification object of the second entry is signaled,
socket 6 having a write and a close event pending. -/
def readyWorld : World :=
  ⟨[⟨10, true, false⟩, ⟨11, false, false⟩, ⟨12, false, true⟩], 5, [(5, 0), (6, 34)], 0⟩

/-- A world for `sampleLoop` in which no further event object can be created; `errno` is 0, the
value it has until a C runtime call fails. -/
def exhaustedWorld : World :=
  ⟨[⟨10, true, false⟩, ⟨11, false, false⟩, ⟨12, false, false⟩], 0, [(5, 0), (6, 0), (7, 0)], 0⟩

/-- An entry for socket 7 about to be registered: no notification object yet. -/
def newEntry : pomp_fd := ⟨7, 1, 102, 202, NULL⟩

/-- An entry for the handle 8, which is not an open socket of the sample worlds. -/
def strayEntry : pomp_fd := ⟨8, 1, 103, 203, NULL⟩

/-! ## Bit masks -/

theorem or_eq_zero_iff (a b : Nat) : a ||| b = 0 ↔ a = 0 ∧ b = 0 := by
  constructor
  · intro h
    have hb : ∀ i, (a.testBit i || b.testBit i) = false := by
      intro i
      rw [← Nat.testBit_or, h, Nat.zero_testBit]
    constructor
    · apply Nat.eq_of_testBit_eq
      intro i
      have := hb i
      simp only [Bool.or_eq_false_iff] at this
      simp [this.1]
    · apply Nat.eq_of_testBit_eq
      intro i
      have := hb i
      simp only [Bool.or_eq_false_iff] at this
      simp [this.2]
  · rintro ⟨rfl, rfl⟩
    simp

/-- A word meets `a ||| b` exactly when it meets `a` or meets `b`. -/
theorem and_or_ne_zero_iff (x a b : Nat) : x &&& (a ||| b) ≠ 0 ↔ x &&& a ≠ 0 ∨ x &&& b ≠ 0 := by
  rw [Nat.and_or_distrib_left, Ne, or_eq_zero_iff]
  tauto

theorem and_one_cases (m : Nat) : m &&& 1 = 0 ∨ m &&& 1 = 1 := by
  rw [Nat.and_one_is_mod]
  omega

theorem and_two_cases (m : Nat) : m &&& 2 = 0 ∨ m &&& 2 = 2 := by
  have hle : m &&& 2 ≤ 2 := Nat.and_le_right
  have h1 : (m &&& 2) &&& 1 = 0 := by
    rw [Nat.and_assoc]
    simp
  have hne : m &&& 2 ≠ 1 := by
    intro h
    rw [h] at h1
    simp at h1
  omega

/-- Closed form of `fd_events_from_wsa`: one canonical bit per class of native bits. -/
theorem fd_events_from_wsa_eq {K : Type} (P : Win32 K) (events : Nat) :
    fd_events_from_wsa P events =
      ((if events &&& (P.FD_READ ||| P.FD_ACCEPT ||| P.FD_CLOSE) ≠ 0 then 1 else 0) |||
       (if events &&& (P.FD_WRITE ||| P.FD_CONNECT) ≠ 0 then 2 else 0)) := by
  have hr := and_or_ne_zero_iff events (P.FD_READ ||| P.FD_ACCEPT) P.FD_CLOSE
  have hr2 := and_or_ne_zero_iff events P.FD_READ P.FD_ACCEPT
  have hw := and_or_ne_zero_iff events P.FD_WRITE P.FD_CONNECT
  unfold fd_events_from_wsa POMP_FD_EVENT_IN POMP_FD_EVENT_OUT
  by_cases h1 : events &&& P.FD_READ = 0 <;> by_cases h2 : events &&& P.FD_WRITE = 0 <;>
    by_cases h3 : events &&& P.FD_ACCEPT = 0 <;> by_cases h4 : events &&& P.FD_CONNECT = 0 <;>
    by_cases h5 : events &&& P.FD_CLOSE = 0 <;>
    simp [h1, h2, h3, h4, h5, Nat.and_or_distrib_left, or_eq_zero_iff]

/-- C6. `fd_events_from_wsa` maps every native event word to the two-bit canonical mask: the
result has no bit outside `POMP_FD_EVENT_IN | POMP_FD_EVENT_OUT`; `POMP_FD_EVENT_IN` is set
exactly when one of `FD_READ`, `FD_ACCEPT`, `FD_CLOSE` is set in the input; and
`POMP_FD_EVENT_OUT` is set exactly when one of `FD_WRITE`, `FD_CONNECT` is set. -/
theorem fd_events_from_wsa_canonical {K : Type} (P : Win32 K) (events : Nat) :
    fd_events_from_wsa P events &&& (POMP_FD_EVENT_IN ||| POMP_FD_EVENT_OUT)
        = fd_events_from_wsa P events
    ∧ (fd_events_from_wsa P events &&& POMP_FD_EVENT_IN ≠ 0 ↔
        (events &&& P.FD_READ ≠ 0 ∨ events &&& P.FD_ACCEPT ≠ 0 ∨ events &&& P.FD_CLOSE ≠ 0))
    ∧ (fd_events_from_wsa P events &&& POMP_FD_EVENT_OUT ≠ 0 ↔
        (events &&& P.FD_WRITE ≠ 0 ∨ events &&& P.FD_CONNECT ≠ 0)) := by
  unfold fd_events_from_wsa POMP_FD_EVENT_IN POMP_FD_EVENT_OUT
  by_cases h1 : events &&& P.FD_READ = 0 <;> by_cases h2 : events &&& P.FD_WRITE = 0 <;>
    by_cases h3 : events &&& P.FD_ACCEPT = 0 <;> by_cases h4 : events &&& P.FD_CONNECT = 0 <;>
    by_cases h5 : events &&& P.FD_CLOSE = 0 <;>
    simp [h1, h2, h3, h4, h5] <;> decide

/-- Closed form of `fd_events_to_wsa`. -/
theorem fd_events_to_wsa_eq {K : Type} (P : Win32 K) (m : Nat) :
    fd_events_to_wsa P m =
      ((if m &&& 1 ≠ 0 then P.FD_READ ||| P.FD_ACCEPT ||| P.FD_CLOSE else 0) |||
       (if m &&& 2 ≠ 0 then P.FD_WRITE ||| P.FD_CONNECT else 0)) := by
  unfold fd_events_to_wsa POMP_FD_EVENT_IN POMP_FD_EVENT_OUT
  by_cases h1 : m &&& 1 = 0 <;> by_cases h2 : m &&& 2 = 0 <;> simp [h1, h2]

/-- C9. Whenever the native read class (`FD_READ`, `FD_ACCEPT`, `FD_CLOSE`) and the native
write class (`FD_WRITE`, `FD_CONNECT`) are non-empty and share no bit, converting an interest
mask to native events and back gives the mask restricted to
`POMP_FD_EVENT_IN | POMP_FD_EVENT_OUT`; for the three valid interest masks the result is the
mask itself and the native mask is non-zero. -/
theorem fd_events_roundtrip {K : Type} (P : Win32 K)
    (hR : P.FD_READ ||| P.FD_ACCEPT ||| P.FD_CLOSE ≠ 0)
    (hW : P.FD_WRITE ||| P.FD_CONNECT ≠ 0)
    (hD : (P.FD_READ ||| P.FD_ACCEPT ||| P.FD_CLOSE) &&& (P.FD_WRITE ||| P.FD_CONNECT) = 0)
    (m : Nat) :
    fd_events_from_wsa P (fd_events_to_wsa P m) = m &&& (POMP_FD_EVENT_IN ||| POMP_FD_EVENT_OUT)
    ∧ ((m = POMP_FD_EVENT_IN ∨ m = POMP_FD_EVENT_OUT ∨ m = POMP_FD_EVENT_IN ||| POMP_FD_EVENT_OUT) →
        fd_events_from_wsa P (fd_events_to_wsa P m) = m ∧ fd_events_to_wsa P m ≠ 0) := by
  have hD2 : (P.FD_WRITE ||| P.FD_CONNECT) &&& (P.FD_READ ||| P.FD_ACCEPT ||| P.FD_CLOSE) = 0 := by
    rw [Nat.and_comm]; exact hD
  have key : fd_events_from_wsa P (fd_events_to_wsa P m)
      = m &&& (POMP_FD_EVENT_IN ||| POMP_FD_EVENT_OUT) := by
    rw [fd_events_from_wsa_eq, fd_events_to_wsa_eq]
    unfold POMP_FD_EVENT_IN POMP_FD_EVENT_OUT
    rw [Nat.and_or_distrib_left m 1 2]
    rcases and_one_cases m with h1 | h1 <;> rcases and_two_cases m with h2 | h2 <;>
      simp [h1, h2, hR, hW, hD, hD2, Nat.and_distrib_right]
  refine ⟨key, ?_⟩
  intro hm
  constructor
  · rw [key]
    rcases hm with h | h | h <;> subst h <;> decide
  · rw [fd_events_to_wsa_eq]
    rcases hm with h | h | h <;> subst h <;>
      simp [POMP_FD_EVENT_IN, POMP_FD_EVENT_OUT, or_eq_zero_iff] <;> 
      simp [or_eq_zero_iff] at hR hW <;> tauto

theorem fd_events_roundtrip_witness :
    fd_events_from_wsa win32 (fd_events_to_wsa win32 7) = 3
    ∧ fd_events_from_wsa win32 (fd_events_to_wsa win32 2) = 2
    ∧ fd_events_to_wsa win32 2 ≠ 0 :=
  ⟨(fd_events_roundtrip win32 (by decide) (by decide) (by decide) 7).1,
   ((fd_events_roundtrip win32 (by decide) (by decide) (by decide) 2).2 (by decide)).1,
   ((fd_events_roundtrip win32 (by decide) (by decide) (by decide) 2).2 (by decide)).2⟩

/-! ## The wait set -/

/-- The loop that fills `hevts`, started from any filled part `acc`: it appends the
notification objects of the first entries while there is room. -/
theorem wait_set_fill (pfds : List pomp_fd) (acc : List HANDLE) :
    pfds.foldl
      (fun hevts pfd => if hevts.length < MAXIMUM_WAIT_OBJECTS then hevts ++ [pfd.hevt] else hevts)
      acc
    = acc ++ (pfds.take (MAXIMUM_WAIT_OBJECTS - acc.length)).map (fun pfd => pfd.hevt) := by
  induction pfds generalizing acc with
  | nil => simp
  | cons p ps ih =>
    rw [List.foldl_cons]
    by_cases h : acc.length < MAXIMUM_WAIT_OBJECTS
    · rw [if_pos h, ih]
      have e : MAXIMUM_WAIT_OBJECTS - acc.length
          = (MAXIMUM_WAIT_OBJECTS - (acc ++ [p.hevt]).length) + 1 := by
        simp only [List.length_append, List.length_singleton]
        omega
      rw [e, List.take_succ_cons]
      simp
    · rw [if_neg h, ih]
      have e : MAXIMUM_WAIT_OBJECTS - acc.length = 0 := by omega
      simp [e]

theorem wait_set_eq (loop : pomp_loop) :
    pomp_loop_win32_wait_set loop
      = loop.wakeup.hevt :: (loop.pfds.take 63).map (fun pfd => pfd.hevt) := by
  unfold pomp_loop_win32_wait_set
  rw [wait_set_fill]
  simp [MAXIMUM_WAIT_OBJECTS]

theorem wait_set_length (loop : pomp_loop) :
    (pomp_loop_win32_wait_set loop).length = min (loop.pfds.length + 1) 64 := by
  rw [wait_set_eq]
  simp
  omega

/-- C5. The wait set built by `pomp_loop_win32_do_wait_and_process` is the wakeup primitive at
index 0 followed by the notification objects of the first
`min(n, MAXIMUM_WAIT_OBJECTS - 1)` registered entries in table order; its length is
`min(n + 1, MAXIMUM_WAIT_OBJECTS)` with `MAXIMUM_WAIT_OBJECTS = 64`, so it never exceeds the
platform bound; the notification objects of the entries after the first 63 are exactly what is
left out; and this set, with this count, is what the platform wait is called on. -/
theorem wait_set_layout (loop : pomp_loop) :
    pomp_loop_win32_wait_set loop
      = loop.wakeup.hevt ::
          (loop.pfds.take (min loop.pfds.length (MAXIMUM_WAIT_OBJECTS - 1))).map (fun pfd => pfd.hevt)
    ∧ (pomp_loop_win32_wait_set loop).length = min (loop.pfds.length + 1) MAXIMUM_WAIT_OBJECTS
    ∧ MAXIMUM_WAIT_OBJECTS = 64
    ∧ (pomp_loop_win32_wait_set loop).length ≤ MAXIMUM_WAIT_OBJECTS
    ∧ (pomp_loop_win32_wait_set loop).tail ++ (loop.pfds.drop 63).map (fun pfd => pfd.hevt)
        = loop.pfds.map (fun pfd => pfd.hevt)
    ∧ ∀ (K : Type) (P : Win32 K) (w : K) (timeout : Int),
        pomp_loop_win32_wait P w loop timeout
          = P.WaitForMultipleObjects w (min (loop.pfds.length + 1) 64)
              (loop.wakeup.hevt :: (loop.pfds.take 63).map (fun pfd => pfd.hevt)) false
              (if timeout = -1 then P.INFINITE else toDWORD timeout) := by
  have hM : MAXIMUM_WAIT_OBJECTS = 64 := rfl
  refine ⟨?_, ?_, hM, ?_, ?_, ?_⟩
  · rw [wait_set_eq, hM]
    congr 2
    rw [List.take_eq_take]
    omega
  · rw [wait_set_length, hM]
  · rw [wait_set_length, hM]
    omega
  · rw [wait_set_eq, List.tail_cons, ← List.map_append, List.take_append_drop]
  · intro K P w timeout
    unfold pomp_loop_win32_wait
    simp only []
    rw [wait_set_length, wait_set_eq]

/-! ## Resolving a notification object -/

/-- Searching for the notification object of a registered entry finds a registered entry that
owns it. -/
theorem find_pfd_of_mem (loop : pomp_loop) (p : pomp_fd) (hp : p ∈ loop.pfds) :
    ∃ pfd, pomp_loop_win32_find_pfd_by_hevt loop p.hevt = some pfd
      ∧ pfd ∈ loop.pfds ∧ pfd.hevt = p.hevt := by
  unfold pomp_loop_win32_find_pfd_by_hevt
  cases hf : loop.pfds.find? (fun pfd => decide (pfd.hevt = p.hevt)) with
  | none =>
    rw [List.find?_eq_none] at hf
    have := hf p hp
    simp at this
  | some pfd =>
    refine ⟨pfd, rfl, List.mem_of_find?_eq_some hf, ?_⟩
    have := List.find?_some hf
    simpa using this

/-- An index of the wait set other than 0 selects the notification object of the registered
entry just before it in table order. -/
theorem wait_set_get_succ (loop : pomp_loop) (i : Nat)
    (hi : i + 1 < (pomp_loop_win32_wait_set loop).length) :
    ∃ p, loop.pfds[i]? = some p ∧ (pomp_loop_win32_wait_set loop).getD (i + 1) NULL = p.hevt := by
  rw [wait_set_length] at hi
  have hlt : i < loop.pfds.length := by omega
  refine ⟨loop.pfds[i], List.getElem?_eq_getElem hlt, ?_⟩
  rw [wait_set_eq, List.getD_cons_succ, List.getD_eq_getElem?_getD, List.getElem?_map,
    List.getElem?_take]
  have h63 : i < 63 := by omega
  simp [h63, List.getElem?_eq_getElem hlt]

/-- C10. For every loop state and every wait result that is a valid index into the wait set,
the selected object is the wakeup primitive or `pomp_loop_win32_find_pfd_by_hevt` returns a
registered entry that owns it, never `NULL`. -/
theorem wait_set_object_resolves (loop : pomp_loop) (i : Nat)
    (hi : i < (pomp_loop_win32_wait_set loop).length) :
    (pomp_loop_win32_wait_set loop).getD i NULL = loop.wakeup.hevt
    ∨ ∃ pfd, pomp_loop_win32_find_pfd_by_hevt loop ((pomp_loop_win32_wait_set loop).getD i NULL)
          = some pfd
        ∧ pfd ∈ loop.pfds ∧ pfd.hevt = (pomp_loop_win32_wait_set loop).getD i NULL := by
  cases i with
  | zero =>
    left
    rw [wait_set_eq]
    rfl
  | succ j =>
    right
    obtain ⟨p, hp, hget⟩ := wait_set_get_succ loop j hi
    rw [hget]
    exact find_pfd_of_mem loop p (List.getElem?_mem hp)

/-! ## One pass of wait and dispatch -/

/-- C1. For every platform, world, loop state and timeout: whatever result the platform wait
reports, `pomp_loop_win32_do_wait_and_process` returns having invoked at most one registered
callback; and when the wait never returns, nothing is invoked at all. -/
theorem at_most_one_callback {K : Type} (P : Win32 K) (w : K) (loop : pomp_loop)
    (timeout : Int) :
    (∀ waitres w1, pomp_loop_win32_wait P w loop timeout = some (waitres, w1) →
      ∃ o, pomp_loop_win32_do_wait_and_process P w loop timeout = some o ∧ o.calls.length ≤ 1)
    ∧ (pomp_loop_win32_wait P w loop timeout = none →
        pomp_loop_win32_do_wait_and_process P w loop timeout = none) := by
  constructor
  · intro waitres w1 hwait
    unfold pomp_loop_win32_do_wait_and_process
    simp only [hwait]
    split_ifs
    · exact ⟨_, rfl, by simp⟩
    · exact ⟨_, rfl, by simp⟩
    · exact ⟨_, rfl, by simp⟩
    · split
      · exact ⟨_, rfl, by simp⟩
      · split_ifs
        · exact ⟨_, rfl, by simp⟩
        · exact ⟨_, rfl, by simp⟩
  · intro hwait
    unfold pomp_loop_win32_do_wait_and_process
    simp only [hwait]

/-- C2. Let the registered entries have non-negative handles and pairwise distinct notification
objects, all distinct from the wakeup primitive, and let the wait result codes of the platform
be unambiguous (no object index collides with `WAIT_TIMEOUT`, no `DWORD` overflow). If the wait
reports the object at wait-set index `i`, `1 ≤ i < count`, then the call returns 0 having
invoked exactly one callback: that of the `i`-th registered entry in table order, which owns
the object, with the entry's handle, `fd_events_from_wsa` of the network events enumerated for
the entry, and the entry's user data. -/
theorem dispatch_signaled_entry {K : Type} (P : Win32 K) (w w1 : K) (loop : pomp_loop)
    (timeout : Int) (i : Nat)
    (hfd : ∀ pfd ∈ loop.pfds, 0 ≤ pfd.fd)
    (hnd : (loop.pfds.map (fun pfd => pfd.hevt)).Nodup)
    (hwk : ∀ pfd ∈ loop.pfds, pfd.hevt ≠ loop.wakeup.hevt)
    (hcodes : P.WAIT_OBJECT_0 + MAXIMUM_WAIT_OBJECTS ≤ P.WAIT_TIMEOUT)
    (hdword : P.WAIT_TIMEOUT < 4294967296)
    (hi : 1 ≤ i) (hcount : i < (pomp_loop_win32_wait_set loop).length)
    (hwait : pomp_loop_win32_wait P w loop timeout = some (P.WAIT_OBJECT_0 + i, w1)) :
    ∃ pfd, loop.pfds[i - 1]? = some pfd
      ∧ (pomp_loop_win32_wait_set loop)[i]? = some pfd.hevt
      ∧ pomp_loop_win32_do_wait_and_process P w loop timeout
          = some ⟨0,
              [⟨pfd.cb, pfd.fd,
                fd_events_from_wsa P (P.WSAEnumNetworkEvents w1 pfd.fd pfd.hevt).1,
                pfd.userdata⟩],
              (P.WSAEnumNetworkEvents w1 pfd.fd pfd.hevt).2, loop⟩ := by
  obtain ⟨j, rfl⟩ : ∃ j, i = j + 1 := ⟨i - 1, by omega⟩
  obtain ⟨p, hp, hget⟩ := wait_set_get_succ loop j hcount
  have hmem : p ∈ loop.pfds := List.getElem?_mem hp
  have hlen := wait_set_length loop
  have hM : MAXIMUM_WAIT_OBJECTS = 64 := rfl
  obtain ⟨q, hq, hqmem, hqe⟩ := find_pfd_of_mem loop p hmem
  have hqp : q = p := List.inj_on_of_nodup_map hnd hqmem hmem hqe
  subst hqp
  refine ⟨q, by simpa using hp, ?_, ?_⟩
  · rw [List.getElem?_eq_getElem hcount, ← hget, List.getD_eq_getElem?_getD,
      List.getElem?_eq_getElem hcount]
    rfl
  · have h1 : P.WAIT_OBJECT_0 + (j + 1) ≠ P.WAIT_TIMEOUT := by omega
    have h2 : ¬ (P.WAIT_OBJECT_0 + (j + 1) < P.WAIT_OBJECT_0
        ∨ P.WAIT_OBJECT_0 + (j + 1)
            ≥ (P.WAIT_OBJECT_0 + (pomp_loop_win32_wait_set loop).length) % 4294967296) := by
      rw [Nat.mod_eq_of_lt (by omega)]
      omega
    have h3 : P.WAIT_OBJECT_0 + (j + 1) - P.WAIT_OBJECT_0 = j + 1 := by omega
    have h4 : q.fd ≥ 0 := hfd q hmem
    unfold pomp_loop_win32_do_wait_and_process
    simp only [hwait, if_neg h1, if_neg h2, h3, hget, if_neg (hwk q hmem), hq, if_pos h4]

/-! ## The reference platform -/

theorem signaled_setSignal_true (w : World) (h : HANDLE) (hopen : w.isOpen h = true) :
    (w.setSignal h true).signaled h = true := by
  unfold World.isOpen at hopen
  unfold World.signaled World.setSignal
  simp only [List.any_eq_true, beq_iff_eq, List.mem_map] at *
  obtain ⟨e, he, heq⟩ := hopen
  exact ⟨{ e with signaled := true }, ⟨e, he, by simp [heq]⟩, by simp [heq]⟩

theorem signaled_setSignal_false (w : World) (h : HANDLE) :
    (w.setSignal h false).signaled h = false := by
  unfold World.signaled World.setSignal
  rw [Bool.eq_false_iff]
  intro hc
  simp only [List.any_eq_true, List.mem_map] at hc
  obtain ⟨e', ⟨e, _, rfl⟩, h2⟩ := hc
  by_cases hh : e.handle = h <;> simp [hh] at h2

theorem signaled_setSignal_other (w : World) (h h' : HANDLE) (b : Bool) (hne : h' ≠ h) :
    (w.setSignal h b).signaled h' = w.signaled h' := by
  unfold World.signaled World.setSignal
  simp only [List.any_map]
  congr 1
  funext e
  by_cases hh : e.handle = h
  · have hf : (h == h') = false := by simpa using Ne.symm hne
    simp [hh, hf]
  · simp [hh]

theorem signaled_autoReset_other (w : World) (h h' : HANDLE) (hne : h' ≠ h) :
    (w.autoReset h).signaled h' = w.signaled h' := by
  unfold World.signaled World.autoReset
  simp only [List.any_map]
  congr 1
  funext e
  by_cases hh : e.handle = h ∧ e.manualReset = false
  · have hf : (h == h') = false := by simpa using Ne.symm hne
    simp [hh, hf]
  · simp [hh]

theorem lowestSignaled_none (w : World) (hs : List HANDLE) (i : Nat)
    (h : ∀ x ∈ hs, w.signaled x = false) : w.lowestSignaled hs i = none := by
  induction hs generalizing i with
  | nil => rfl
  | cons x xs ih =>
    unfold World.lowestSignaled
    rw [h x (List.mem_cons_self x xs)]
    simpa using ih (i + 1) (fun y hy => h y (List.mem_cons_of_mem x hy))

/-- The conversion `(DWORD)timeout` of a non-negative `int` is not `INFINITE`. -/
theorem toDWORD_ne_infinite (timeout : Int) (h0 : 0 ≤ timeout) (h1 : timeout < 2147483648) :
    toDWORD timeout ≠ 4294967295 := by
  unfold toDWORD
  omega

/-- On the reference platform a wait with a finite timeout and nothing signaled in the wait set
reports `WAIT_TIMEOUT` and changes nothing. -/
theorem wait_nothing_ready (w : World) (loop : pomp_loop) (timeout : Int)
    (h0 : 0 ≤ timeout) (h1 : timeout < 2147483648)
    (hq : ∀ h ∈ pomp_loop_win32_wait_set loop, w.signaled h = false) :
    pomp_loop_win32_wait win32 w loop timeout = some (win32.WAIT_TIMEOUT, w) := by
  have hne : timeout ≠ -1 := by omega
  have hinf := toDWORD_ne_infinite timeout h0 h1
  unfold pomp_loop_win32_wait
  simp only [win32, if_neg hne, List.take_length]
  rw [lowestSignaled_none w _ 0 hq]
  simp [hinf]

/-- C4. Whenever the platform wait reports that the timeout elapsed,
`pomp_loop_win32_do_wait_and_process` returns `-ETIMEDOUT`, invokes no callback and makes no
further platform call, so the loop and the world are as the wait left them. On the reference
platform this is the case for every finite non-negative timeout (0 included) when nothing in the
wait set is signaled (no registrations included), and then nothing changes at all. -/
theorem timeout_gives_etimedout :
    (∀ (K : Type) (P : Win32 K) (w w1 : K) (loop : pomp_loop) (timeout : Int),
      pomp_loop_win32_wait P w loop timeout = some (P.WAIT_TIMEOUT, w1) →
      pomp_loop_win32_do_wait_and_process P w loop timeout
        = some ⟨-P.ETIMEDOUT, [], w1, loop⟩)
    ∧ (∀ (w : World) (loop : pomp_loop) (timeout : Int),
        0 ≤ timeout → timeout < 2147483648 →
        (∀ h ∈ pomp_loop_win32_wait_set loop, w.signaled h = false) →
        pomp_loop_win32_do_wait_and_process win32 w loop timeout
          = some ⟨-win32.ETIMEDOUT, [], w, loop⟩) := by
  have gen : ∀ (K : Type) (P : Win32 K) (w w1 : K) (loop : pomp_loop) (timeout : Int),
      pomp_loop_win32_wait P w loop timeout = some (P.WAIT_TIMEOUT, w1) →
      pomp_loop_win32_do_wait_and_process P w loop timeout
        = some ⟨-P.ETIMEDOUT, [], w1, loop⟩ := by
    intro K P w w1 loop timeout hwait
    unfold pomp_loop_win32_do_wait_and_process
    simp only [hwait, if_true]
  refine ⟨gen, ?_⟩
  intro w loop timeout h0 h1 hq
  exact gen World win32 w w loop timeout (wait_nothing_ready w loop timeout h0 h1 hq)

/-- On the reference platform, waking up a loop whose wakeup primitive is an open event object
succeeds and leaves that object signaled. -/
theorem do_wakeup_signals (w : World) (loop : pomp_loop)
    (hopen : w.isOpen loop.wakeup.hevt = true) :
    pomp_loop_win32_do_wakeup win32 w loop = (0, w.setSignal loop.wakeup.hevt true) := by
  unfold pomp_loop_win32_do_wakeup
  simp [win32, hopen]

/-- On the reference platform a wait that finds the wakeup primitive signaled is satisfied by
it, at index 0, whatever else is signaled and whatever the timeout. -/
theorem wait_wakeup_signaled (w : World) (loop : pomp_loop) (timeout : Int)
    (hs : w.signaled loop.wakeup.hevt = true) :
    pomp_loop_win32_wait win32 w loop timeout
      = some (win32.WAIT_OBJECT_0, w.autoReset loop.wakeup.hevt) := by
  unfold pomp_loop_win32_wait
  simp only [win32, List.take_length]
  rw [wait_set_eq]
  simp [World.lowestSignaled, hs]

/-- C3. A wakeup is never lost and never dispatches. On the reference platform (the wait is
satisfied by the lowest-index signaled object of the wait set), for every world, every loop
whose wakeup primitive is an open event object, and every timeout:
`pomp_loop_win32_do_wakeup` returns 0 and leaves the wakeup primitive signaled, and the next
`pomp_loop_win32_do_wait_and_process` returns 0, which is not `-ETIMEDOUT`, invokes no callback,
leaves the wakeup primitive unsignaled, the loop structure unchanged and the state of every
other event object as it was before the wakeup. -/
theorem wakeup_not_lost (w : World) (loop : pomp_loop) (timeout : Int)
    (hopen : w.isOpen loop.wakeup.hevt = true) :
    (pomp_loop_win32_do_wakeup win32 w loop).1 = 0
    ∧ (pomp_loop_win32_do_wakeup win32 w loop).2.signaled loop.wakeup.hevt = true
    ∧ ∃ w2,
        pomp_loop_win32_do_wait_and_process win32 (pomp_loop_win32_do_wakeup win32 w loop).2
            loop timeout
          = some ⟨0, [], w2, loop⟩
        ∧ (0 : Int) ≠ -win32.ETIMEDOUT
        ∧ w2.signaled loop.wakeup.hevt = false
        ∧ ∀ h, h ≠ loop.wakeup.hevt → w2.signaled h = w.signaled h := by
  rw [do_wakeup_signals w loop hopen]
  have hs := signaled_setSignal_true w loop.wakeup.hevt hopen
  refine ⟨rfl, hs, ?_⟩
  refine ⟨((w.setSignal loop.wakeup.hevt true).autoReset loop.wakeup.hevt).setSignal
    loop.wakeup.hevt false, ?_, by decide, signaled_setSignal_false _ _, ?_⟩
  · have hwait := wait_wakeup_signaled (w.setSignal loop.wakeup.hevt true) loop timeout hs
    have hlen := wait_set_length loop
    have h1 : win32.WAIT_OBJECT_0 ≠ win32.WAIT_TIMEOUT := by decide
    have h2 : ¬ (win32.WAIT_OBJECT_0 < win32.WAIT_OBJECT_0
        ∨ win32.WAIT_OBJECT_0
            ≥ (win32.WAIT_OBJECT_0 + (pomp_loop_win32_wait_set loop).length) % 4294967296) := by
      have h0 : win32.WAIT_OBJECT_0 = 0 := rfl
      rw [h0, Nat.zero_add, Nat.mod_eq_of_lt (by omega)]
      omega
    have h3 : (pomp_loop_win32_wait_set loop).getD (win32.WAIT_OBJECT_0 - win32.WAIT_OBJECT_0)
        NULL = loop.wakeup.hevt := by
      rw [wait_set_eq]
      rfl
    unfold pomp_loop_win32_do_wait_and_process
    simp only [hwait, if_neg h1, if_neg h2, h3, if_true]
    rfl
  · intro h hne
    rw [signaled_setSignal_other _ _ _ _ hne, signaled_autoReset_other _ _ _ hne,
      signaled_setSignal_other _ _ _ _ hne]

/-- C8. `pomp_loop_win32_do_get_fd` returns `-ENOSYS` for every loop state and leaves the loop as
it is; as `ENOSYS` is a positive error number, the result is never a non-negative descriptor. -/
theorem do_get_fd_not_supported {K : Type} (P : Win32 K) (loop : pomp_loop) :
    (pomp_loop_win32_do_get_fd P loop).1 = -P.ENOSYS
    ∧ (pomp_loop_win32_do_get_fd P loop).2 = loop
    ∧ (0 < P.ENOSYS → (pomp_loop_win32_do_get_fd P loop).1 < 0) := by
  refine ⟨rfl, rfl, ?_⟩
  intro h
  show -P.ENOSYS < 0
  omega

/-! ## Registration -/

/-- What `pomp_loop_win32_do_add` returns on each of its three paths: `-errno` with the
notification object absent when `CreateEvent` fails; `-errno` with the object closed and absent
when `WSAEventSelect` fails; 0 with the object present when both succeed. -/
theorem do_add_paths {K : Type} (P : Win32 K) (w : K) (loop : pomp_loop) (pfd : pomp_fd) :
    ((P.CreateEvent w false false).1 = NULL →
      pomp_loop_win32_do_add P w loop pfd
        = (-(P.errno (P.CreateEvent w false false).2), { pfd with hevt := NULL },
            (P.CreateEvent w false false).2))
    ∧ ((P.CreateEvent w false false).1 ≠ NULL →
        (P.WSAEventSelect (P.CreateEvent w false false).2 pfd.fd (P.CreateEvent w false false).1
            (fd_events_to_wsa P pfd.events)).1 ≠ 0 →
        pomp_loop_win32_do_add P w loop pfd
          = (-(P.errno (P.WSAEventSelect (P.CreateEvent w false false).2 pfd.fd
                  (P.CreateEvent w false false).1 (fd_events_to_wsa P pfd.events)).2),
              { pfd with hevt := NULL },
              P.CloseHandle (P.WSAEventSelect (P.CreateEvent w false false).2 pfd.fd
                  (P.CreateEvent w false false).1 (fd_events_to_wsa P pfd.events)).2
                (P.CreateEvent w false false).1))
    ∧ ((P.CreateEvent w false false).1 ≠ NULL →
        (P.WSAEventSelect (P.CreateEvent w false false).2 pfd.fd (P.CreateEvent w false false).1
            (fd_events_to_wsa P pfd.events)).1 = 0 →
        pomp_loop_win32_do_add P w loop pfd
          = (0, { pfd with hevt := (P.CreateEvent w false false).1 },
              (P.WSAEventSelect (P.CreateEvent w false false).2 pfd.fd
                  (P.CreateEvent w false false).1 (fd_events_to_wsa P pfd.events)).2)) := by
  refine ⟨?_, ?_, ?_⟩
  · intro h
    unfold pomp_loop_win32_do_add
    simp [h]
  · intro h hr
    unfold pomp_loop_win32_do_add
    simp [h, hr]
  · intro h hr
    unfold pomp_loop_win32_do_add
    simp [h, hr]

/-- C7, the code at the failing inputs. With `errno` equal to 0, a failed `CreateEvent` (no
event object left to create) and a failed `WSAEventSelect` (the handle is not a socket) both make
`pomp_loop_win32_do_add` return 0, the success code, with the notification object absent. -/
theorem do_add_failure_returns_zero :
    (win32.CreateEvent exhaustedWorld false false).1 = NULL
    ∧ pomp_loop_win32_do_add win32 exhaustedWorld sampleLoop newEntry
        = (0, newEntry, exhaustedWorld)
    ∧ (win32.CreateEvent quietWorld false false).1 = 13
    ∧ (win32.WSAEventSelect (win32.CreateEvent quietWorld false false).2 8 13 41).1 = -1
    ∧ pomp_loop_win32_do_add win32 quietWorld sampleLoop strayEntry
        = (0, strayEntry, quietWorld) := by
  refine ⟨?_, ?_, ?_, ?_, ?_⟩ <;> decide

/-! ## The theorems at the sample states -/

theorem at_most_one_callback_witness :
    pomp_loop_win32_wait win32 readyWorld sampleLoop 0
        = some (2, readyWorld.autoReset 12)
    ∧ ∃ o, pomp_loop_win32_do_wait_and_process win32 readyWorld sampleLoop 0 = some o
        ∧ o.calls.length ≤ 1 :=
  ⟨by decide,
   (at_most_one_callback win32 readyWorld sampleLoop 0).1 2 (readyWorld.autoReset 12)
     (by decide)⟩

theorem dispatch_signaled_entry_witness :
    pomp_loop_win32_wait win32 readyWorld sampleLoop 0
        = some (win32.WAIT_OBJECT_0 + 2, readyWorld.autoReset 12)
    ∧ ∃ pfd, sampleLoop.pfds[2 - 1]? = some pfd
        ∧ (pomp_loop_win32_wait_set sampleLoop)[2]? = some pfd.hevt
        ∧ pomp_loop_win32_do_wait_and_process win32 readyWorld sampleLoop 0
            = some ⟨0,
                [⟨pfd.cb, pfd.fd,
                  fd_events_from_wsa win32
                    (win32.WSAEnumNetworkEvents (readyWorld.autoReset 12) pfd.fd pfd.hevt).1,
                  pfd.userdata⟩],
                (win32.WSAEnumNetworkEvents (readyWorld.autoReset 12) pfd.fd pfd.hevt).2,
                sampleLoop⟩ :=
  ⟨by decide,
   dispatch_signaled_entry win32 readyWorld (readyWorld.autoReset 12) sampleLoop 0 2
     (by decide) (by decide) (by decide) (by decide) (by decide) (by decide) (by decide)
     (by decide)⟩

theorem wakeup_not_lost_witness :
    readyWorld.isOpen sampleLoop.wakeup.hevt = true
    ∧ (pomp_loop_win32_do_wakeup win32 readyWorld sampleLoop).1 = 0
    ∧ (pomp_loop_win32_do_wakeup win32 readyWorld sampleLoop).2.signaled sampleLoop.wakeup.hevt
        = true
    ∧ ∃ w2,
        pomp_loop_win32_do_wait_and_process win32
            (pomp_loop_win32_do_wakeup win32 readyWorld sampleLoop).2 sampleLoop (-1)
          = some ⟨0, [], w2, sampleLoop⟩
        ∧ (0 : Int) ≠ -win32.ETIMEDOUT
        ∧ w2.signaled sampleLoop.wakeup.hevt = false
        ∧ ∀ h, h ≠ sampleLoop.wakeup.hevt → w2.signaled h = readyWorld.signaled h :=
  ⟨by decide, wakeup_not_lost readyWorld sampleLoop (-1) (by decide)⟩

theorem timeout_gives_etimedout_witness :
    pomp_loop_win32_wait win32 quietWorld sampleLoop 0 = some (win32.WAIT_TIMEOUT, quietWorld)
    ∧ pomp_loop_win32_do_wait_and_process win32 quietWorld sampleLoop 0
        = some ⟨-win32.ETIMEDOUT, [], quietWorld, sampleLoop⟩
    ∧ pomp_loop_win32_do_wait_and_process win32 quietWorld ⟨[], ⟨10⟩⟩ 250
        = some ⟨-win32.ETIMEDOUT, [], quietWorld, ⟨[], ⟨10⟩⟩⟩ :=
  ⟨by decide,
   timeout_gives_etimedout.1 World win32 quietWorld quietWorld sampleLoop 0 (by decide),
   timeout_gives_etimedout.2 quietWorld ⟨[], ⟨10⟩⟩ 250 (by decide) (by decide) (by decide)⟩

theorem do_get_fd_not_supported_witness :
    0 < win32.ENOSYS ∧ (pomp_loop_win32_do_get_fd win32 sampleLoop).1 < 0 :=
  ⟨by decide, (do_get_fd_not_supported win32 sampleLoop).2.2 (by decide)⟩

theorem wait_set_object_resolves_witness :
    2 < (pomp_loop_win32_wait_set sampleLoop).length
    ∧ ((pomp_loop_win32_wait_set sampleLoop).getD 2 NULL = sampleLoop.wakeup.hevt
      ∨ ∃ pfd, pomp_loop_win32_find_pfd_by_hevt sampleLoop
            ((pomp_loop_win32_wait_set sampleLoop).getD 2 NULL) = some pfd
          ∧ pfd ∈ sampleLoop.pfds
          ∧ pfd.hevt = (pomp_loop_win32_wait_set sampleLoop).getD 2 NULL) :=
  ⟨by decide, wait_set_object_resolves sampleLoop 2 (by decide)⟩

end Pomp
